import Mathlib

/-!
Shallow embedding of the asynchronous query execution core of the
Db_Explorer repository (src/main_window.py and src/dialogs/db.py),
together with theorems checking the specification claims against it.

The embedding models the observable behaviour of RunnableQuery.run and
RunnableExport.run as event traces over an explicit backend environment
(connection outcome, cursor description, fetched rows, rowcount, commit
outcome) and an explicit cooperative-cancellation flag sampled at the
successive instants at which the Python code reads the flag.
-/

namespace DbExplorer

/-- Python str.strip whitespace set: space, tab, newline, carriage return,
vertical tab and form feed. -/
def pyIsSpace (c : Char) : Bool :=
  c = ' ' || c = '\t' || c = '\n' || c = '\r' || c = Char.ofNat 11 || c = Char.ofNat 12

/-- ASCII lowering of one character, as Python str.lower acts on ASCII. -/
def pyLowerChar (c : Char) : Char :=
  if 65 ≤ c.toNat && c.toNat ≤ 90 then Char.ofNat (c.toNat + 32) else c

/-- Python str.lower on a string (ASCII part). -/
def pyLower (s : String) : String :=
  String.mk (s.toList.map pyLowerChar)

/-- Python str.strip on a string. -/
def pyStrip (s : String) : String :=
  String.mk (((s.toList.dropWhile pyIsSpace).reverse.dropWhile pyIsSpace).reverse)

/-- Python str.startswith on character lists: the first list is the
candidate prefix. -/
def listPrefix : List Char → List Char → Bool
  | [], _ => true
  | _ :: _, [] => false
  | a :: as, b :: bs => a = b && listPrefix as bs

/-- Statement classification of RunnableQuery.run, line 985 of
main_window.py: query.lower().strip().startswith("select"). -/
def isSelectQuery (q : String) : Bool :=
  listPrefix "select".toList (pyStrip (pyLower q)).toList

/-- The leading whitespace-delimited token of the trimmed, lowercased
statement text. Used only to state the claim C4 reading of the spec. -/
def leadingToken (q : String) : String :=
  String.mk ((pyStrip (pyLower q)).toList.takeWhile (fun c => !(pyIsSpace c)))

/-- Classifier following the words of the spec for claim C4: the trimmed,
case-insensitive leading token is a row-returning keyword (the only
row-returning keyword of this deployment being select). -/
def specRowReturning (q : String) : Bool :=
  leadingToken q = "select"

/-- Python truthiness of an optional string value, as used on
conn_data["db_path"]. -/
def strTruthy : Option String → Bool
  | none => false
  | some s => s ≠ ""

/-- Decimal digit test for the int() conversion model. -/
def pyIsDigit (c : Char) : Bool := 48 ≤ c.toNat && c.toNat ≤ 57

/-- Success of the Python int() conversion on a string: surrounding
whitespace allowed, an optional sign, then a nonempty run of decimal
digits (digit-grouping underscores are not modelled). -/
def pyIntParses (s : String) : Bool :=
  let l := (pyStrip s).toList
  let digits := match l with
    | c :: rest => if c = '+' || c = '-' then rest else c :: rest
    | [] => []
  !digits.isEmpty && digits.all pyIsDigit

/-- Success of int(conn_data["port"]) at line 976 of main_window.py: a
NULL port raises TypeError, a string port raises ValueError unless it is
a decimal numeral; an integer port column converts trivially and is
modelled as its numeral string. -/
def pyIntOk : Option String → Bool
  | none => false
  | some s => pyIntParses s

/-- Python truthiness of the optional numeric id in conn_data.get("id"),
as used by MainWindow.save_query_to_history. -/
def idTruthy : Option Int → Bool
  | none => false
  | some n => n != 0

/-- The conn_data dictionary shape produced by
dialogs/db.get_all_connections_from_db: optional metadata-store id plus
the stored columns; a missing or NULL column is modelled as none. -/
structure ConnData where
  id : Option Int := none
  db_path : Option String := none
  host : Option String := none
  port : Option String := none
  database : Option String := none
  user : Option String := none
  password : Option String := none
deriving Repr, DecidableEq

/-- The two connection factories RunnableQuery.run can dispatch to. -/
inductive ConnKind where
  | sqlite
  | postgres
deriving Repr, DecidableEq

/-- dialogs/db.create_sqlite_connection: the underlying connect either
yields a handle or raises the backend error class; the factory catches it
and returns None. -/
def create_sqlite_connection : Except String Unit → Option Unit
  | Except.ok c => some c
  | Except.error _ => none

/-- dialogs/db.create_postgres_connection: same catching shape as the
sqlite factory, catching the backend OperationalError. -/
def create_postgres_connection : Except String Unit → Option Unit
  | Except.ok c => some c
  | Except.error _ => none

/-- Dispatch of RunnableQuery.run, lines 972 to 976: a present, truthy
db_path selects the sqlite factory, anything else goes to the postgres
factory. -/
def dispatchKind (cd : ConnData) : ConnKind :=
  if strTruthy cd.db_path then ConnKind.sqlite else ConnKind.postgres

/-- Backend environment of one query job run: the outcome of every
external call the job makes. -/
structure Backend where
  connectRaw : Except String Unit := Except.ok ()
  execOk : Bool := true
  execErr : String := "execution error"
  description : Option (List String) := none
  fetchOk : Bool := true
  fetchErr : String := "fetch error"
  fetchResult : List (List String) := []
  rowcount : Int := -1
  commitOk : Bool := true
  commitErr : String := "commit error"

/-- The connection handle RunnableQuery.run obtains for a descriptor:
none either when the dispatched factory returned None, or when the int()
conversion of the port raised before the postgres factory was called. -/
def openConn (cd : ConnData) (be : Backend) : Option Unit :=
  if strTruthy cd.db_path then create_sqlite_connection be.connectRaw
  else if pyIntOk cd.port then create_postgres_connection be.connectRaw
  else none

/-- Payload of the finished signal of RunnableQuery.run: results, column
names, row count and the row-returning flag. -/
structure Payload where
  results : List (List String)
  columns : List String
  row_count : Int
  is_select : Bool
deriving Repr, DecidableEq

/-- Observable events of one RunnableQuery.run execution. checkFlag
records a read of the cooperative flag at a cancellation checkpoint,
handlerCheck records the read inside the except handler. -/
inductive Ev where
  | connect (k : ConnKind) (ok : Bool)
  | execute
  | fetch
  | commit
  | checkFlag (v : Bool)
  | handlerCheck (v : Bool)
  | emitFinished (p : Payload)
  | emitError (msg : String)
  | close
deriving Repr, DecidableEq

/-- The generic message raised when a factory returned None, line 978. -/
def connFailMsg : String := "Failed to establish database connection."

/-- Stands for the message of the ValueError or TypeError raised by the
int() conversion on a port value that does not convert; the interpreter
supplies the exact text, modelled here as an opaque constant distinct
from the generic connection failure message. -/
def portConvErrMsg : String := "invalid literal for int() with base 10"

/-- Trace semantics of RunnableQuery.run from line 977 on, once the
factory call for backend kind k has produced conn: the None check, the
statement execution, the three cancellation checkpoints, the except
handler and the finally block. The flag argument gives the value of the
cooperative cancellation flag at its successive reads: read number 0 is
the first read performed on the path taken, and so on; the except
handler read is also numbered in this sequence, since it is just a later
read of the same flag. -/
def runQueryConn (k : ConnKind) (conn : Option Unit) (query : String)
    (be : Backend) (flag : Nat → Bool) : List Ev :=
  match conn with
  | none =>
      if flag 0 then [Ev.connect k false, Ev.handlerCheck true]
      else [Ev.connect k false, Ev.handlerCheck false,
            Ev.emitError connFailMsg]
  | some _ =>
      Ev.connect k true :: Ev.execute ::
          (if be.execOk = false then
            (if flag 0 then [Ev.handlerCheck true, Ev.close]
             else [Ev.handlerCheck false, Ev.emitError be.execErr, Ev.close])
           else if flag 0 then [Ev.checkFlag true, Ev.close, Ev.close]
           else
            Ev.checkFlag false ::
            (if isSelectQuery query then
              match be.description with
              | some cols =>
                  if flag 1 then
                    Ev.checkFlag true ::
                    (if flag 2 then [Ev.checkFlag true, Ev.close, Ev.close]
                     else [Ev.checkFlag false, Ev.emitFinished ⟨[], cols, 0, true⟩,
                           Ev.close])
                  else
                    Ev.checkFlag false :: Ev.fetch ::
                    (if be.fetchOk = false then
                      (if flag 2 then [Ev.handlerCheck true, Ev.close]
                       else [Ev.handlerCheck false, Ev.emitError be.fetchErr, Ev.close])
                     else if flag 2 then [Ev.checkFlag true, Ev.close, Ev.close]
                     else [Ev.checkFlag false,
                           Ev.emitFinished
                             ⟨be.fetchResult, cols, (be.fetchResult.length : Int), true⟩,
                           Ev.close])
              | none =>
                  if flag 1 then [Ev.checkFlag true, Ev.close, Ev.close]
                  else [Ev.checkFlag false, Ev.emitFinished ⟨[], [], 0, true⟩, Ev.close]
             else
              if be.commitOk = false then
                (if flag 1 then [Ev.handlerCheck true, Ev.close]
                 else [Ev.handlerCheck false, Ev.emitError be.commitErr, Ev.close])
              else
                Ev.commit ::
                (if flag 1 then [Ev.checkFlag true, Ev.close, Ev.close]
                 else [Ev.checkFlag false,
                       Ev.emitFinished
                         ⟨[], [], if be.rowcount = -1 then 0 else be.rowcount, false⟩,
                       Ev.close])))

/-- Trace semantics of RunnableQuery.run, lines 966 to 1009 of
main_window.py: the conn_data truthiness check, then the dispatch of
lines 972 to 976: a truthy db_path selects the sqlite factory; otherwise
int() is applied to the port value first, and its failure raises before
the postgres factory is called. -/
def runQuery (conn_data : Option ConnData) (query : String) (be : Backend)
    (flag : Nat → Bool) : List Ev :=
  match conn_data with
  | none =>
      if flag 0 then [Ev.handlerCheck true]
      else [Ev.handlerCheck false, Ev.emitError "Incomplete connection information."]
  | some cd =>
      if strTruthy cd.db_path then
        runQueryConn ConnKind.sqlite (create_sqlite_connection be.connectRaw)
          query be flag
      else if pyIntOk cd.port then
        runQueryConn ConnKind.postgres (create_postgres_connection be.connectRaw)
          query be flag
      else
        if flag 0 then [Ev.handlerCheck true]
        else [Ev.handlerCheck false, Ev.emitError portConvErrMsg]

/-- A cooperative cancellation flag only moves from false to true. -/
def MonotoneFlag (flag : Nat → Bool) : Prop :=
  ∀ i j, i ≤ j → flag i = true → flag j = true

/-- Payloads of the finished signals occurring in a trace. -/
def finishedPayloads : List Ev → List Payload
  | [] => []
  | Ev.emitFinished p :: rest => p :: finishedPayloads rest
  | _ :: rest => finishedPayloads rest

/-- Messages of the error signals occurring in a trace. -/
def errorMessages : List Ev → List String
  | [] => []
  | Ev.emitError m :: rest => m :: errorMessages rest
  | _ :: rest => errorMessages rest

/-- One persisted row of the query_history table, as written by
dialogs/db.save_query_history. -/
structure HistoryRow where
  connection_item_id : Int
  query_text : String
  status : String
  rows_affected : Int
deriving Repr, DecidableEq

/-- MainWindow.save_query_to_history, lines 1879 to 1887: returns early
when conn_data.get("id") is falsy, otherwise persists exactly one row. -/
def save_query_to_history (cd : ConnData) (query status : String) (rows : Int) :
    List HistoryRow :=
  if idTruthy cd.id then
    [{ connection_item_id := cd.id.getD 0, query_text := query,
       status := status, rows_affected := rows }]
  else []

/-- History rows produced for a list of finished payloads: the result
handler persists each finished outcome with status Success. -/
def historyOf (cd : ConnData) (query : String) : List Payload → List HistoryRow
  | [] => []
  | p :: rest => save_query_to_history cd query "Success" p.row_count ++ historyOf cd query rest

/-- History rows written over one job trace: the finished signal is the
only event whose handler, MainWindow.handle_query_result, calls
save_query_to_history, always with status Success. -/
def jobHistory (cd : ConnData) (query : String) : List Ev → List HistoryRow
  | [] => []
  | Ev.emitFinished p :: rest =>
      save_query_to_history cd query "Success" p.row_count ++ jobHistory cd query rest
  | _ :: rest => jobHistory cd query rest

/-- The running_queries dictionary of MainWindow, mapping a tab (session)
identifier to its in-flight runnable (job) identifier. -/
abbrev Registry := List (Nat × Nat)

/-- Dictionary lookup on the registry. -/
def rlookup : Registry → Nat → Option Nat
  | [], _ => none
  | (k, v) :: rest, s => if k = s then some v else rlookup rest s

/-- Dictionary key deletion on the registry. -/
def rremove : Registry → Nat → Registry
  | [], _ => []
  | (k, v) :: rest, s => if k = s then rremove rest s else (k, v) :: rremove rest s

/-- Registry effect of MainWindow.execute_query, lines 1726 to 1767: a
tab with an in-flight job refuses the submission and changes nothing; an
idle tab with a connection and a nonempty statement records the new job
and accepts. The Boolean result is the accepted flag. -/
def execute_query (r : Registry) (s job : Nat) (hasInput : Bool) : Registry × Bool :=
  if (rlookup r s).isSome then (r, false)
  else if hasInput then ((s, job) :: r, true)
  else (r, false)

/-- Registry effect shared by the terminal handlers: delete the slot of
the session if present. -/
def clear_running (r : Registry) (s : Nat) : Registry := rremove r s

/-- Registry effect of MainWindow.handle_query_result, lines 1853 to 1854. -/
def handle_query_result (r : Registry) (s : Nat) : Registry := clear_running r s

/-- Registry effect of MainWindow.handle_query_error, lines 1800 to 1801. -/
def handle_query_error (r : Registry) (s : Nat) : Registry := clear_running r s

/-- Registry effect of MainWindow.cancel_current_query, lines 1858 to
1877: when a runnable is active its cancel method is called (Boolean
result) and the slot is deleted; otherwise a no-op. -/
def cancel_current_query (r : Registry) (s : Nat) : Registry × Bool :=
  match rlookup r s with
  | some _ => (clear_running r s, true)
  | none => (r, false)

/-- Backend environment of one export job run. -/
structure ExportEnv where
  connectRaw : Except String Unit := Except.ok ()
  readOk : Bool := true
  readErr : String := "read error"
  rowsRead : Nat := 0
  writeOk : Bool := true
  writeErr : String := "write error"

/-- Observable events of one RunnableExport.run execution. -/
inductive ExEv where
  | connect (k : ConnKind) (ok : Bool)
  | readQuery
  | writeFile
  | emitFinished (pid : String) (rows : Nat)
  | emitError (pid : String) (msg : String)
  | close
deriving Repr, DecidableEq

/-- Message wrapping of the except handler of RunnableExport.run. -/
def exportErrMsg (detail : String) : String :=
  "An error occurred during export: " ++ detail

/-- Body of RunnableExport.run after the backend kind dispatch, lines
933 to 953: check the handle, read the full table, write the file, emit
the terminal signal, close in the finally block. -/
def runExportConn (pid : String) (k : ConnKind) (conn : Option Unit)
    (env : ExportEnv) : List ExEv :=
  match conn with
  | none =>
      [ExEv.connect k false,
       ExEv.emitError pid (exportErrMsg "Failed to connect to the database for export.")]
  | some _ =>
      ExEv.connect k true :: ExEv.readQuery ::
      (if env.readOk = false then [ExEv.emitError pid (exportErrMsg env.readErr), ExEv.close]
       else ExEv.writeFile ::
         (if env.writeOk = false then
            [ExEv.emitError pid (exportErrMsg env.writeErr), ExEv.close]
          else [ExEv.emitFinished pid env.rowsRead, ExEv.close]))

/-- Trace semantics of RunnableExport.run, lines 917 to 953 of
main_window.py: dispatch on the db_type tag of the tree item; an
unrecognised tag raises ValueError before any factory call. -/
def runExport (pid : String) (db_type : String) (env : ExportEnv) : List ExEv :=
  if db_type = "sqlite" then
    runExportConn pid ConnKind.sqlite (create_sqlite_connection env.connectRaw) env
  else if db_type = "postgres" then
    runExportConn pid ConnKind.postgres (create_postgres_connection env.connectRaw) env
  else
    [ExEv.emitError pid (exportErrMsg "Unsupported database type for export.")]

/-- The connection handle an export job obtains for a supported kind. -/
def exportConn (db_type : String) (env : ExportEnv) : Option Unit :=
  if db_type = "sqlite" then create_sqlite_connection env.connectRaw
  else create_postgres_connection env.connectRaw

/-- A file-backed descriptor with a persisted metadata-store id. -/
def cdSqlite : ConnData := { id := some 1, db_path := some "/data/test.db" }

/-- The dictionary an item saved under the Oracle connections category of
the metadata store presents to the query path: db_path is NULL, the
network columns are populated. RunnableQuery.run has no kind tag to
inspect, so this descriptor is indistinguishable from a postgres one. -/
def cdOracleShaped : ConnData :=
  { id := some 3, host := some "orahost", port := some "1521",
    database := some "XEPDB1", user := some "scott", password := some "tiger" }

/-- A network descriptor whose port column is NULL (the postgres dialog
validates only the name, so such an item is saveable): int() on the port
raises before the postgres factory is called. -/
def cdBadPort : ConnData :=
  { id := some 4, host := some "pg", database := some "appdb",
    user := some "u", password := some "pw" }

/-- A backend where everything succeeds and two rows come back. -/
def beOk : Backend :=
  { description := some ["id", "name"], fetchResult := [["1", "a"], ["2", "b"]] }

/-- A backend whose underlying connect raises. -/
def beConnFail : Backend := { connectRaw := Except.error "connection refused" }

/-- A backend for a successful mutating statement affecting five rows. -/
def beMutOk : Backend := { rowcount := 5 }

/-- A backend with a result descriptor but zero rows. -/
def beEmpty : Backend := { description := some ["c1"], fetchResult := [] }

/-- A backend for a mutating statement with the unknown-count sentinel. -/
def beUnknownCount : Backend := {}

/-- A flag that is never set: no cancellation. -/
def flagNever : Nat → Bool := fun _ => false

/-- A flag already set before the job starts. -/
def flagAlways : Nat → Bool := fun _ => true

/-- A flag set between the first and the second read. -/
def flagAfterFirst : Nat → Bool := fun i => decide (1 ≤ i)

/-- The characters kept by takeWhile always form a prefix of the list. -/
lemma listPrefix_takeWhile (p : Char → Bool) (l : List Char) :
    listPrefix (l.takeWhile p) l = true := by
  induction l with
  | nil => rfl
  | cons a as ih =>
      by_cases h : p a = true
      · simp [List.takeWhile_cons, h, listPrefix, ih]
      · simp [List.takeWhile_cons, h, listPrefix]

/-- A member of a list of length at most one determines the list. -/
lemma mem_len_le_one {α : Type} {l : List α} {p : α} (h : p ∈ l)
    (hl : l.length ≤ 1) : l = [p] := by
  cases l with
  | nil => cases h
  | cons a t =>
      cases t with
      | nil => simp at h; simp [h]
      | cons b t2 => simp at hl

/-- History written over a trace is the history of its finished payloads. -/
lemma jobHistory_eq (cd : ConnData) (q : String) (tr : List Ev) :
    jobHistory cd q tr = historyOf cd q (finishedPayloads tr) := by
  induction tr with
  | nil => rfl
  | cons e rest ih => cases e <;> simp [jobHistory, finishedPayloads, historyOf, ih]

/-- Once a handle was obtained, the job trace is the post-factory trace
for the dispatched backend kind. -/
lemma runQuery_opened (cd : ConnData) (q : String) (be : Backend)
    (flag : Nat → Bool) (u : Unit) (hc : openConn cd be = some u) :
    runQuery (some cd) q be flag =
      runQueryConn (dispatchKind cd) (some u) q be flag := by
  unfold openConn at hc
  by_cases h1 : strTruthy cd.db_path = true
  · rw [if_pos h1] at hc
    simp [runQuery, dispatchKind, h1, hc]
  · rw [if_neg h1] at hc
    by_cases h2 : pyIntOk cd.port = true
    · rw [if_pos h2] at hc
      simp [runQuery, dispatchKind, h1, h2, hc]
    · rw [if_neg h2] at hc
      simp at hc

/-- A post-factory trace emits the finished signal at most once. -/
lemma finishedPayloads_conn_at_most_one (k : ConnKind) (conn : Option Unit)
    (q : String) (be : Backend) (flag : Nat → Bool) :
    (finishedPayloads (runQueryConn k conn q be flag)).length ≤ 1 := by
  simp only [runQueryConn]
  cases conn with
  | none => cases h0 : flag 0 <;> simp [finishedPayloads]
  | some u =>
      cases hE : be.execOk with
      | false => cases h0 : flag 0 <;> simp [finishedPayloads]
      | true =>
          cases h0 : flag 0 with
          | true => simp [finishedPayloads]
          | false =>
              cases hS : isSelectQuery q with
              | true =>
                  cases hd : be.description with
                  | none => cases h1 : flag 1 <;> simp [finishedPayloads]
                  | some cols =>
                      cases h1 : flag 1 with
                      | true => cases h2 : flag 2 <;> simp [finishedPayloads]
                      | false =>
                          cases hF : be.fetchOk with
                          | false => cases h2 : flag 2 <;> simp [finishedPayloads]
                          | true => cases h2 : flag 2 <;> simp [finishedPayloads]
              | false =>
                  cases hCm : be.commitOk with
                  | false => cases h1 : flag 1 <;> simp [finishedPayloads]
                  | true => cases h1 : flag 1 <;> simp [finishedPayloads]

/-- A query job emits the finished signal at most once. -/
lemma finishedPayloads_at_most_one (cd : ConnData) (q : String) (be : Backend)
    (flag : Nat → Bool) :
    (finishedPayloads (runQuery (some cd) q be flag)).length ≤ 1 := by
  simp only [runQuery]
  by_cases h1 : strTruthy cd.db_path = true
  · rw [if_pos h1]
    exact finishedPayloads_conn_at_most_one _ _ _ _ _
  · rw [if_neg h1]
    by_cases h2 : pyIntOk cd.port = true
    · rw [if_pos h2]
      exact finishedPayloads_conn_at_most_one _ _ _ _ _
    · rw [if_neg h2]
      cases h0 : flag 0 <;> simp [finishedPayloads]

/-- Characterisation of any payload a post-factory trace can emit: the
row-returning flag matches the lexical classification; for a
row-returning statement the columns are exactly the descriptor columns,
and a missing descriptor yields the empty result; for a mutating
statement the count is the backend count clamped at the sentinel. -/
lemma payload_char_conn (k : ConnKind) (conn : Option Unit) (q : String)
    (be : Backend) (flag : Nat → Bool) (p : Payload)
    (h : p ∈ finishedPayloads (runQueryConn k conn q be flag)) :
    p.is_select = isSelectQuery q ∧
    (∀ cols, be.description = some cols → isSelectQuery q = true → p.columns = cols) ∧
    (be.description = none → isSelectQuery q = true →
      p.results = [] ∧ p.columns = [] ∧ p.row_count = 0) ∧
    (isSelectQuery q = false →
      p.row_count = (if be.rowcount = -1 then 0 else be.rowcount)) := by
  simp only [runQueryConn] at h
  cases conn with
  | none =>
      cases h0 : flag 0 <;> rw [h0] at h <;> simp [finishedPayloads] at h
  | some u =>
      cases hE : be.execOk with
      | false =>
          rw [hE] at h
          cases h0 : flag 0 <;> rw [h0] at h <;> simp [finishedPayloads] at h
      | true =>
          rw [hE] at h
          cases h0 : flag 0 with
          | true => rw [h0] at h; simp [finishedPayloads] at h
          | false =>
              rw [h0] at h
              cases hS : isSelectQuery q with
              | true =>
                  rw [hS] at h
                  cases hd : be.description with
                  | none =>
                      rw [hd] at h
                      cases h1 : flag 1 <;> rw [h1] at h <;>
                        simp [finishedPayloads] at h <;>
                        simp [h, hS, hd, finishedPayloads]
                  | some cols =>
                      rw [hd] at h
                      cases h1 : flag 1 with
                      | true =>
                          rw [h1] at h
                          cases h2 : flag 2 <;> rw [h2] at h <;>
                            simp [finishedPayloads] at h <;>
                            simp [h, hS, hd, finishedPayloads]
                      | false =>
                          rw [h1] at h
                          cases hF : be.fetchOk with
                          | false =>
                              rw [hF] at h
                              cases h2 : flag 2 <;> rw [h2] at h <;>
                                simp [finishedPayloads] at h
                          | true =>
                              rw [hF] at h
                              cases h2 : flag 2 <;> rw [h2] at h <;>
                                simp [finishedPayloads] at h <;>
                                simp [h, hS, hd, finishedPayloads]
              | false =>
                  rw [hS] at h
                  cases hCm : be.commitOk with
                  | false =>
                      rw [hCm] at h
                      cases h1 : flag 1 <;> rw [h1] at h <;>
                        simp [finishedPayloads] at h
                  | true =>
                      rw [hCm] at h
                      cases h1 : flag 1 <;> rw [h1] at h <;>
                        simp [finishedPayloads] at h <;>
                        simp [h, hS, finishedPayloads]

/-- Characterisation of any payload a query job can emit, lifted over
the factory dispatch of runQuery. -/
lemma payload_char (cd : ConnData) (q : String) (be : Backend) (flag : Nat → Bool)
    (p : Payload) (h : p ∈ finishedPayloads (runQuery (some cd) q be flag)) :
    p.is_select = isSelectQuery q ∧
    (∀ cols, be.description = some cols → isSelectQuery q = true → p.columns = cols) ∧
    (be.description = none → isSelectQuery q = true →
      p.results = [] ∧ p.columns = [] ∧ p.row_count = 0) ∧
    (isSelectQuery q = false →
      p.row_count = (if be.rowcount = -1 then 0 else be.rowcount)) := by
  simp only [runQuery] at h
  by_cases h1 : strTruthy cd.db_path = true
  · rw [if_pos h1] at h
    exact payload_char_conn _ _ _ _ _ _ h
  · rw [if_neg h1] at h
    by_cases h2 : pyIntOk cd.port = true
    · rw [if_pos h2] at h
      exact payload_char_conn _ _ _ _ _ _ h
    · rw [if_neg h2] at h
      cases h0 : flag 0 <;> rw [h0] at h <;> simp [finishedPayloads] at h

/-- Deleting a key removes it from the registry. -/
lemma rremove_rlookup_self (r : Registry) (s : Nat) :
    rlookup (rremove r s) s = none := by
  induction r with
  | nil => rfl
  | cons p rest ih =>
      by_cases h : p.1 = s <;> simp [rremove, rlookup, h, ih]

/-- Deleting a key leaves every other key unchanged. -/
lemma rremove_rlookup_other (r : Registry) (s s2 : Nat) (h : s2 ≠ s) :
    rlookup (rremove r s) s2 = rlookup r s2 := by
  induction r with
  | nil => rfl
  | cons p rest ih =>
      by_cases h1 : p.1 = s
      · simp [rremove, rlookup, h1, ih, Ne.symm h]
      · by_cases h2 : p.1 = s2 <;> simp [rremove, rlookup, h1, h2, ih, h]

/-- Deleting a key twice is the same as deleting it once. -/
lemma rremove_idem (r : Registry) (s : Nat) :
    rremove (rremove r s) s = rremove r s := by
  induction r with
  | nil => rfl
  | cons p rest ih =>
      by_cases h : p.1 = s <;> simp [rremove, h, ih]

/-- Once the flag has been observed true at a cancellation checkpoint, a
post-factory trace contains no finished signal, no error signal and no
history write. -/
lemma checkFlag_suppresses_conn (cd : ConnData) (k : ConnKind)
    (conn : Option Unit) (q : String) (be : Backend) (flag : Nat → Bool)
    (hm : MonotoneFlag flag)
    (h : Ev.checkFlag true ∈ runQueryConn k conn q be flag) :
    finishedPayloads (runQueryConn k conn q be flag) = [] ∧
    errorMessages (runQueryConn k conn q be flag) = [] ∧
    jobHistory cd q (runQueryConn k conn q be flag) = [] := by
  simp only [runQueryConn] at h ⊢
  obtain ⟨b0, h0⟩ : ∃ b, flag 0 = b := ⟨_, rfl⟩
  rw [h0] at h ⊢
  obtain ⟨b1, h1⟩ : ∃ b, flag 1 = b := ⟨_, rfl⟩
  rw [h1] at h ⊢
  obtain ⟨b2, h2⟩ : ∃ b, flag 2 = b := ⟨_, rfl⟩
  rw [h2] at h ⊢
  cases conn with
  | none => cases b0 <;> simp at h
  | some u =>
      cases hE : be.execOk with
      | false => cases b0 <;> simp [hE] at h
      | true =>
          cases b0 with
          | true => simp [hE, finishedPayloads, errorMessages, jobHistory]
          | false =>
              cases hS : isSelectQuery q with
              | true =>
                  cases hd : be.description with
                  | none =>
                      cases b1 <;>
                        simp [hE, hS, hd, finishedPayloads, errorMessages, jobHistory] at h ⊢
                  | some cols =>
                      cases b1 with
                      | true =>
                          cases b2 with
                          | true =>
                              simp [hE, hS, hd, finishedPayloads, errorMessages, jobHistory]
                          | false =>
                              have hmx : flag 2 = true := hm 1 2 (by omega) h1
                              rw [h2] at hmx
                              exact absurd hmx (by simp)
                      | false =>
                          cases hF : be.fetchOk with
                          | false => cases b2 <;> simp [hE, hS, hd, hF] at h
                          | true =>
                              cases b2 <;>
                                simp [hE, hS, hd, hF, finishedPayloads, errorMessages, jobHistory] at h ⊢
              | false =>
                  cases hCm : be.commitOk with
                  | false => cases b1 <;> simp [hE, hS, hCm] at h
                  | true =>
                      cases b1 <;>
                        simp [hE, hS, hCm, finishedPayloads, errorMessages, jobHistory] at h ⊢

/-- A post-factory trace of a classified row-returning statement never
contains a commit. -/
lemma commit_not_mem_select_conn (k : ConnKind) (conn : Option Unit)
    (q : String) (be : Backend) (flag : Nat → Bool)
    (hq : isSelectQuery q = true) :
    Ev.commit ∉ runQueryConn k conn q be flag := by
  simp only [runQueryConn]
  cases conn with
  | none => cases h0 : flag 0 <;> simp [h0]
  | some u =>
      cases hE : be.execOk with
      | false => cases h0 : flag 0 <;> simp [hE, h0]
      | true =>
          cases h0 : flag 0 with
          | true => simp [hE, h0]
          | false =>
              cases hd : be.description with
              | none => cases h1 : flag 1 <;> simp [hE, hq, hd, h0, h1]
              | some cols =>
                  cases h1 : flag 1 with
                  | true => cases h2 : flag 2 <;> simp [hE, hq, hd, h0, h1, h2]
                  | false =>
                      cases hF : be.fetchOk with
                      | false =>
                          cases h2 : flag 2 <;> simp [hE, hq, hd, hF, h0, h1, h2]
                      | true =>
                          cases h2 : flag 2 <;> simp [hE, hq, hd, hF, h0, h1, h2]

/-- A post-factory trace that starts from an obtained handle always
contains a close. -/
lemma close_mem_conn (k : ConnKind) (u : Unit) (q : String) (be : Backend)
    (flag : Nat → Bool) :
    Ev.close ∈ runQueryConn k (some u) q be flag := by
  simp only [runQueryConn]
  cases hE : be.execOk with
  | false => cases h0 : flag 0 <;> simp [hE, h0]
  | true =>
      cases h0 : flag 0 with
      | true => simp [hE, h0]
      | false =>
          cases hS : isSelectQuery q with
          | true =>
              cases hd : be.description with
              | none => cases h1 : flag 1 <;> simp [hE, hS, hd, h0, h1]
              | some cols =>
                  cases h1 : flag 1 with
                  | true => cases h2 : flag 2 <;> simp [hE, hS, hd, h0, h1, h2]
                  | false =>
                      cases hF : be.fetchOk with
                      | false =>
                          cases h2 : flag 2 <;> simp [hE, hS, hd, hF, h0, h1, h2]
                      | true =>
                          cases h2 : flag 2 <;> simp [hE, hS, hd, hF, h0, h1, h2]
          | false =>
              cases hCm : be.commitOk with
              | false => cases h1 : flag 1 <;> simp [hE, hS, hCm, h0, h1]
              | true => cases h1 : flag 1 <;> simp [hE, hS, hCm, h0, h1]

/-- Claim C1 counterexample: with the cancellation flag already true
before the job starts, a checkpoint placed immediately after connection
open would observe it and stop the job before the statement runs; the
code instead executes the statement right after opening the connection,
with no flag consultation in between, so the claimed first checkpoint
does not exist. -/
theorem C1_counterexample :
    flagAlways 0 = true ∧
    Ev.execute ∈ runQuery (some cdSqlite) "select 1" beOk flagAlways ∧
    (runQuery (some cdSqlite) "select 1" beOk flagAlways).take 2 =
      [Ev.connect ConnKind.sqlite true, Ev.execute] := by
  decide

/-- Claim C1 (amended): the cooperative flag is consulted at checkpoints
immediately after statement execution, before fetching rows, and
immediately before marshaling results, but not immediately after
connection open; if the monotonic flag is observed true at any
checkpoint, the job emits no Succeeded outcome, emits no error, and
writes no history row, regardless of whether the statement completed. -/
theorem C1_cancellation_suppresses_output (cd : ConnData) (q : String)
    (be : Backend) (flag : Nat → Bool) (hm : MonotoneFlag flag)
    (h : Ev.checkFlag true ∈ runQuery (some cd) q be flag) :
    finishedPayloads (runQuery (some cd) q be flag) = [] ∧
    errorMessages (runQuery (some cd) q be flag) = [] ∧
    jobHistory cd q (runQuery (some cd) q be flag) = [] := by
  simp only [runQuery] at h ⊢
  by_cases hb : strTruthy cd.db_path = true
  · rw [if_pos hb] at h ⊢
    exact checkFlag_suppresses_conn cd _ _ q be flag hm h
  · rw [if_neg hb] at h ⊢
    by_cases hp : pyIntOk cd.port = true
    · rw [if_pos hp] at h ⊢
      exact checkFlag_suppresses_conn cd _ _ q be flag hm h
    · rw [if_neg hp] at h ⊢
      cases h0 : flag 0 <;> rw [h0] at h <;> simp at h

/-- Claim C1 witness: a concrete cancelled job emits nothing. -/
theorem C1_cancellation_suppresses_output_witness :
    finishedPayloads (runQuery (some cdSqlite) "select 1" beOk flagAfterFirst) = [] ∧
    errorMessages (runQuery (some cdSqlite) "select 1" beOk flagAfterFirst) = [] ∧
    jobHistory cdSqlite "select 1" (runQuery (some cdSqlite) "select 1" beOk flagAfterFirst) = [] :=
  C1_cancellation_suppresses_output cdSqlite "select 1" beOk flagAfterFirst
    (by intro i j hij hi; simp [flagAfterFirst] at hi ⊢; omega)
    (by decide)

/-- Claim C2: a second submission for a session with an in-flight job is
refused and leaves the registry untouched; an accepted submission records
the job; every terminal transition (success, error, cancellation) clears
the slot of exactly that session, leaving other sessions alone, and a
second clear is a no-op. -/
theorem C2_one_job_per_session :
    (∀ (r : Registry) (s j j0 : Nat) (b : Bool),
        rlookup r s = some j0 → execute_query r s j b = (r, false)) ∧
    (∀ (r : Registry) (s j : Nat),
        rlookup r s = none → execute_query r s j true = ((s, j) :: r, true)) ∧
    (∀ (r : Registry) (s : Nat),
        rlookup (handle_query_result r s) s = none ∧
        rlookup (handle_query_error r s) s = none ∧
        rlookup (cancel_current_query r s).1 s = none) ∧
    (∀ (r : Registry) (s s2 : Nat), s2 ≠ s →
        rlookup (clear_running r s) s2 = rlookup r s2) ∧
    (∀ (r : Registry) (s : Nat),
        clear_running (clear_running r s) s = clear_running r s) := by
  refine ⟨?_, ?_, ?_, ?_, ?_⟩
  · intro r s j j0 b hr
    simp [execute_query, hr]
  · intro r s j hr
    simp [execute_query, hr]
  · intro r s
    refine ⟨rremove_rlookup_self r s, rremove_rlookup_self r s, ?_⟩
    unfold cancel_current_query
    cases hr : rlookup r s with
    | none => simpa using hr
    | some j => simpa using rremove_rlookup_self r s
  · intro r s s2 h
    exact rremove_rlookup_other r s s2 h
  · intro r s
    exact rremove_idem r s

/-- Claim C2 witness: a concrete occupied session refuses a second job,
and a terminal transition clears the concrete slot. -/
theorem C2_one_job_per_session_witness :
    execute_query [(1, 7)] 1 9 true = ([(1, 7)], false) ∧
    rlookup (handle_query_result [(1, 7)] 1) 1 = none :=
  ⟨C2_one_job_per_session.1 [(1, 7)] 1 9 7 true (by decide),
   (C2_one_job_per_session.2.2.1 [(1, 7)] 1).1⟩

/-- Claim C3: a job with no metadata-store id writes no history row; a
job that never emits the finished signal writes no history row; a job
that emits the finished signal and has a nonzero id writes exactly one
history row, with status Success and the emitted row count. -/
theorem C3_history_exactly_once (cd : ConnData) (q : String) (be : Backend)
    (flag : Nat → Bool) :
    (cd.id = none → jobHistory cd q (runQuery (some cd) q be flag) = []) ∧
    (finishedPayloads (runQuery (some cd) q be flag) = [] →
        jobHistory cd q (runQuery (some cd) q be flag) = []) ∧
    (∀ (p : Payload) (n : Int), cd.id = some n → n ≠ 0 →
        p ∈ finishedPayloads (runQuery (some cd) q be flag) →
        jobHistory cd q (runQuery (some cd) q be flag) =
          [{ connection_item_id := n, query_text := q, status := "Success",
             rows_affected := p.row_count }]) := by
  refine ⟨?_, ?_, ?_⟩
  · intro hid
    rw [jobHistory_eq]
    generalize finishedPayloads (runQuery (some cd) q be flag) = l
    induction l with
    | nil => rfl
    | cons p rest ih =>
        simp [historyOf, save_query_to_history, idTruthy, hid, ih]
  · intro hfp
    rw [jobHistory_eq, hfp]
    rfl
  · intro p n hid hn hp
    have hone := mem_len_le_one hp (finishedPayloads_at_most_one cd q be flag)
    rw [jobHistory_eq, hone]
    simp [historyOf, save_query_to_history, idTruthy, hid, hn]

/-- Claim C3 witness: a concrete successful job with id 1 writes exactly
one Success row. -/
theorem C3_history_exactly_once_witness :
    jobHistory cdSqlite "select 1" (runQuery (some cdSqlite) "select 1" beOk flagNever) =
      [{ connection_item_id := 1, query_text := "select 1", status := "Success",
         rows_affected := 2 }] :=
  (C3_history_exactly_once cdSqlite "select 1" beOk flagNever).2.2
    ⟨[["1", "a"], ["2", "b"]], ["id", "name"], 2, true⟩ 1
    (by decide) (by decide) (by decide)

/-- Claim C9: for a mutating statement that executes and commits, the
commit happens before the final cancellation checkpoint: when the flag
is first observed true at that final checkpoint the trace still contains
the commit, yet the job emits no outcome at all and writes no history. -/
theorem C9_commit_before_final_checkpoint (cd : ConnData) (q : String)
    (be : Backend) (flag : Nat → Bool) (hq : isSelectQuery q = false)
    (hc : openConn cd be = some ()) (he : be.execOk = true)
    (hcm : be.commitOk = true) (h0 : flag 0 = false) (h1 : flag 1 = true) :
    runQuery (some cd) q be flag =
      [Ev.connect (dispatchKind cd) true, Ev.execute, Ev.checkFlag false,
       Ev.commit, Ev.checkFlag true, Ev.close, Ev.close] ∧
    Ev.commit ∈ runQuery (some cd) q be flag ∧
    finishedPayloads (runQuery (some cd) q be flag) = [] ∧
    errorMessages (runQuery (some cd) q be flag) = [] ∧
    jobHistory cd q (runQuery (some cd) q be flag) = [] := by
  have ht : runQuery (some cd) q be flag =
      [Ev.connect (dispatchKind cd) true, Ev.execute, Ev.checkFlag false,
       Ev.commit, Ev.checkFlag true, Ev.close, Ev.close] := by
    rw [runQuery_opened cd q be flag () hc]
    simp [runQueryConn, hq, he, hcm, h0, h1]
  refine ⟨ht, ?_, ?_, ?_, ?_⟩ <;>
    simp [ht, finishedPayloads, errorMessages, jobHistory]

/-- Claim C9 witness: a concrete cancelled mutating job has committed. -/
theorem C9_commit_before_final_checkpoint_witness :
    Ev.commit ∈ runQuery (some cdSqlite) "update t" beMutOk flagAfterFirst ∧
    finishedPayloads (runQuery (some cdSqlite) "update t" beMutOk flagAfterFirst) = [] :=
  ⟨(C9_commit_before_final_checkpoint cdSqlite "update t" beMutOk flagAfterFirst
      (by decide) (by decide) (by decide) (by decide) (by decide) (by decide)).2.1,
   (C9_commit_before_final_checkpoint cdSqlite "update t" beMutOk flagAfterFirst
      (by decide) (by decide) (by decide) (by decide) (by decide) (by decide)).2.2.1⟩

/-- Claim C4 counterexample: the statement selectivity is a single token
that is not the row-returning keyword, yet the code classifies it as
row-returning because of the prefix match, emits a row-returning result
for it, and never commits; under the claim it would have been treated as
mutating and committed. -/
theorem C4_counterexample :
    isSelectQuery "selectivity" = true ∧
    specRowReturning "selectivity" = false ∧
    Ev.commit ∉ runQuery (some cdSqlite) "selectivity" beOk flagNever ∧
    finishedPayloads (runQuery (some cdSqlite) "selectivity" beOk flagNever) =
      [{ results := [["1", "a"], ["2", "b"]], columns := ["id", "name"],
         row_count := 2, is_select := true }] := by
  decide

/-- Claim C4 (amended): classification is a prefix match, not a leading
token match: every statement whose leading token is the keyword is
classified row-returning, but the converse fails; every statement not so
classified is treated as mutating and, when it executes without observed
cancellation, its transaction is committed; a classified statement is
never committed. -/
theorem C4_classification (cd : ConnData) (q : String) (be : Backend)
    (flag : Nat → Bool) :
    (specRowReturning q = true → isSelectQuery q = true) ∧
    (isSelectQuery q = false → openConn cd be = some () → be.execOk = true →
        be.commitOk = true → flag 0 = false →
        Ev.commit ∈ runQuery (some cd) q be flag) ∧
    (isSelectQuery q = true → Ev.commit ∉ runQuery (some cd) q be flag) := by
  refine ⟨?_, ?_, ?_⟩
  · intro hs
    unfold specRowReturning leadingToken at hs
    have hls : ((pyStrip (pyLower q)).toList.takeWhile (fun c => !(pyIsSpace c))) =
        "select".toList := by
      have h2 := congrArg String.toList (of_decide_eq_true hs)
      simpa using h2
    unfold isSelectQuery
    rw [← hls]
    exact listPrefix_takeWhile _ _
  · intro hq hc he hcm h0
    rw [runQuery_opened cd q be flag () hc]
    simp only [runQueryConn, he, hq, hcm, h0]
    cases h1 : flag 1 <;> simp [hq, h1]
  · intro hq
    simp only [runQuery]
    by_cases hb : strTruthy cd.db_path = true
    · rw [if_pos hb]
      exact commit_not_mem_select_conn _ _ _ _ _ hq
    · rw [if_neg hb]
      by_cases hp : pyIntOk cd.port = true
      · rw [if_pos hp]
        exact commit_not_mem_select_conn _ _ _ _ _ hq
      · rw [if_neg hp]
        cases h0 : flag 0 <;> simp [h0]

/-- Claim C4 witness: a concrete keyword statement is classified and a
concrete mutating statement is committed. -/
theorem C4_classification_witness :
    isSelectQuery " SELECT 1" = true ∧
    Ev.commit ∈ runQuery (some cdSqlite) "update t" beOk flagNever :=
  ⟨(C4_classification cdSqlite " SELECT 1" beOk flagNever).1 (by decide),
   (C4_classification cdSqlite "update t" beOk flagNever).2.1
     (by decide) (by decide) (by decide) (by decide) (by decide)⟩

/-- Claim C5 counterexample: a metadata-store descriptor with NULL
db_path and populated network columns, the shape an item saved under the
Oracle connections category presents to the query path, does not fail
fast: the job dispatches it to the postgres factory, so network
input and output is attempted, and the only error emitted is the generic
connection failure, not an Unsupported connection error. -/
theorem C5_counterexample :
    runQuery (some cdOracleShaped) "select 1" beConnFail flagNever =
      [Ev.connect ConnKind.postgres false, Ev.handlerCheck false,
       Ev.emitError connFailMsg] := by
  decide

/-- Claim C5 (amended): export jobs with an unrecognised backend kind tag
fail fast, emitting only the unsupported-type error with no connection,
read or write event; query jobs perform no such check: a descriptor
without a truthy file path is treated as network-based, so when its port
value converts with int() the postgres factory connection attempt is the
first event of the trace, and when the port value does not convert the
job fails with the int() conversion error before the factory call, again
without any Unsupported classification. -/
theorem C5_unsupported_kind (pid db_type q : String) (env : ExportEnv)
    (cd : ConnData) (be : Backend) (flag : Nat → Bool) :
    (db_type ≠ "sqlite" → db_type ≠ "postgres" →
        runExport pid db_type env =
          [ExEv.emitError pid (exportErrMsg "Unsupported database type for export.")]) ∧
    (strTruthy cd.db_path = false → pyIntOk cd.port = true →
        (runQuery (some cd) q be flag).head? =
          some (Ev.connect ConnKind.postgres
            ((create_postgres_connection be.connectRaw).isSome))) ∧
    (strTruthy cd.db_path = false → pyIntOk cd.port = false → flag 0 = false →
        runQuery (some cd) q be flag =
          [Ev.handlerCheck false, Ev.emitError portConvErrMsg]) := by
  refine ⟨?_, ?_, ?_⟩
  · intro h1 h2
    unfold runExport
    rw [if_neg h1, if_neg h2]
  · intro hs hp
    simp only [runQuery, hs, hp]
    cases hcp : create_postgres_connection be.connectRaw with
    | none => cases h0 : flag 0 <;> simp [runQueryConn, hcp, h0]
    | some u => simp [runQueryConn, hcp]
  · intro hs hp h0
    simp [runQuery, hs, hp, h0]

/-- Claim C5 witness: a concrete unsupported export kind fails fast; a
concrete no-path query descriptor with a numeric port goes straight to
the postgres factory; a concrete no-path descriptor with a NULL port
fails on the int() conversion with no factory call. -/
theorem C5_unsupported_kind_witness :
    runExport "p1" "oracle" {} =
      [ExEv.emitError "p1" (exportErrMsg "Unsupported database type for export.")] ∧
    (runQuery (some cdOracleShaped) "select 1" beOk flagNever).head? =
      some (Ev.connect ConnKind.postgres true) ∧
    runQuery (some cdBadPort) "select 1" beOk flagNever =
      [Ev.handlerCheck false, Ev.emitError portConvErrMsg] :=
  ⟨(C5_unsupported_kind "p1" "oracle" "select 1" {} cdOracleShaped beOk flagNever).1
     (by decide) (by decide),
   (C5_unsupported_kind "p1" "oracle" "select 1" {} cdOracleShaped beOk flagNever).2.1
     (by decide) (by decide),
   (C5_unsupported_kind "p1" "oracle" "select 1" {} cdBadPort beOk flagNever).2.2
     (by decide) (by decide) (by decide)⟩

/-- Claim C6: every finished payload of a row-returning statement carries
exactly the descriptor columns, zero rows included; with no descriptor
the payload is empty with count zero. -/
theorem C6_columns (cd : ConnData) (q : String) (be : Backend)
    (flag : Nat → Bool) (p : Payload)
    (h : p ∈ finishedPayloads (runQuery (some cd) q be flag))
    (hs : p.is_select = true) :
    (∀ cols, be.description = some cols → p.columns = cols) ∧
    (be.description = none → p.results = [] ∧ p.columns = [] ∧ p.row_count = 0) := by
  have pc := payload_char cd q be flag p h
  have hq : isSelectQuery q = true := by rw [← pc.1, hs]
  exact ⟨fun cols hc => pc.2.1 cols hc hq, fun hn => pc.2.2.1 hn hq⟩

/-- Claim C6 witness: a concrete zero-row select keeps its column list. -/
theorem C6_columns_witness :
    (Payload.mk [] ["c1"] 0 true).columns = ["c1"] :=
  (C6_columns cdSqlite "select 1" beEmpty flagNever (Payload.mk [] ["c1"] 0 true)
    (by decide) (by decide)).1 ["c1"] (by decide)

/-- Claim C7: for a completed mutating statement the emitted affected
count is the backend count, except that the unknown sentinel -1 is
clamped to zero; under the backend interface contract (count is -1 or
nonnegative) the emitted count is never negative. -/
theorem C7_affected_count (cd : ConnData) (q : String) (be : Backend)
    (flag : Nat → Bool) (p : Payload)
    (h : p ∈ finishedPayloads (runQuery (some cd) q be flag))
    (hm : p.is_select = false) (hr : be.rowcount = -1 ∨ 0 ≤ be.rowcount) :
    0 ≤ p.row_count ∧ (be.rowcount = -1 → p.row_count = 0) ∧
    (be.rowcount ≠ -1 → p.row_count = be.rowcount) := by
  have pc := payload_char cd q be flag p h
  have hq : isSelectQuery q = false := by rw [← pc.1, hm]
  have hrc := pc.2.2.2 hq
  by_cases hneg : be.rowcount = -1
  · rw [hrc, if_pos hneg]
    exact ⟨le_refl 0, fun _ => rfl, fun hn => absurd hneg hn⟩
  · rw [hrc, if_neg hneg]
    rcases hr with hcase | hcase
    · exact absurd hcase hneg
    · exact ⟨hcase, fun hn => absurd hn hneg, fun _ => rfl⟩

/-- Claim C7 witness: a concrete unknown-sentinel backend yields zero. -/
theorem C7_affected_count_witness :
    (0 : Int) ≤ (Payload.mk [] [] 0 false).row_count ∧
    (Payload.mk [] [] 0 false).row_count = 0 :=
  ⟨(C7_affected_count cdSqlite "update t" beUnknownCount flagNever
      (Payload.mk [] [] 0 false) (by decide) (by decide) (Or.inl (by decide))).1,
   (C7_affected_count cdSqlite "update t" beUnknownCount flagNever
      (Payload.mk [] [] 0 false) (by decide) (by decide) (Or.inl (by decide))).2.1
     (by decide)⟩

/-- Claim C8: any query or export job that successfully opens its
connection closes it on every exit path, success, failure and
cancellation alike. -/
theorem C8_connection_released (cd : ConnData) (q : String) (be : Backend)
    (flag : Nat → Bool) (pid db_type : String) (env : ExportEnv) :
    (openConn cd be = some () → Ev.close ∈ runQuery (some cd) q be flag) ∧
    ((db_type = "sqlite" ∨ db_type = "postgres") →
        exportConn db_type env = some () →
        ExEv.close ∈ runExport pid db_type env) := by
  constructor
  · intro hc
    rw [runQuery_opened cd q be flag () hc]
    exact close_mem_conn _ _ _ _ _
  · intro hk hconn
    rcases hk with hk | hk <;> subst hk
    · unfold exportConn at hconn
      rw [if_pos rfl] at hconn
      unfold runExport runExportConn
      rw [if_pos rfl, hconn]
      cases hr : env.readOk with
      | false => simp [hr]
      | true => cases hw : env.writeOk <;> simp [hr, hw]
    · unfold exportConn at hconn
      rw [if_neg (by decide)] at hconn
      unfold runExport runExportConn
      rw [if_neg (by decide), if_pos rfl, hconn]
      cases hr : env.readOk with
      | false => simp [hr]
      | true => cases hw : env.writeOk <;> simp [hr, hw]

/-- Claim C8 witness: concrete query and export jobs close the handle. -/
theorem C8_connection_released_witness :
    Ev.close ∈ runQuery (some cdSqlite) "select 1" beOk flagNever ∧
    ExEv.close ∈ runExport "p1" "sqlite" {} :=
  ⟨(C8_connection_released cdSqlite "select 1" beOk flagNever "p1" "sqlite" {}).1
     (by decide),
   (C8_connection_released cdSqlite "select 1" beOk flagNever "p1" "sqlite" {}).2
     (Or.inl rfl) (by decide)⟩

/-- Claim C10: both connection factories are total functions that turn
every backend connect failure into None and every success into the
handle; a job whose dispatched factory returned None emits exactly the
one generic connection failure message, the same for both factories,
carrying no detail of the backend, the descriptor, or the kind of
failure. -/
theorem C10_connection_failure_generic (cd : ConnData) (q : String)
    (be : Backend) (flag : Nat → Bool) :
    (∀ e : String, create_sqlite_connection (Except.error e) = none ∧
        create_postgres_connection (Except.error e) = none) ∧
    (∀ c : Unit, create_sqlite_connection (Except.ok c) = some c ∧
        create_postgres_connection (Except.ok c) = some c) ∧
    (strTruthy cd.db_path = true → create_sqlite_connection be.connectRaw = none →
        flag 0 = false →
        runQuery (some cd) q be flag =
          [Ev.connect ConnKind.sqlite false, Ev.handlerCheck false,
           Ev.emitError connFailMsg]) ∧
    (strTruthy cd.db_path = false → pyIntOk cd.port = true →
        create_postgres_connection be.connectRaw = none → flag 0 = false →
        runQuery (some cd) q be flag =
          [Ev.connect ConnKind.postgres false, Ev.handlerCheck false,
           Ev.emitError connFailMsg]) := by
  refine ⟨fun e => ⟨rfl, rfl⟩, fun c => ⟨rfl, rfl⟩, ?_, ?_⟩
  · intro hb hn h0
    simp [runQuery, runQueryConn, hb, hn, h0]
  · intro hb hp hn h0
    simp [runQuery, runQueryConn, hb, hp, hn, h0]

/-- Claim C10 witness: a concrete failing sqlite descriptor yields the
same generic message as the failing network descriptors. -/
theorem C10_connection_failure_generic_witness :
    runQuery (some cdSqlite) "select 1" beConnFail flagNever =
      [Ev.connect ConnKind.sqlite false, Ev.handlerCheck false,
       Ev.emitError connFailMsg] :=
  (C10_connection_failure_generic cdSqlite "select 1" beConnFail flagNever).2.2.1
    (by decide) (by decide) (by decide)

end DbExplorer
